import Mathlib

set_option autoImplicit false

/-!
Shallow embedding of the `bevy_reflect` derive-macro core (attribute parsing,
trait-registration merging, derive-input mode analysis, the semantics of the
generated `FromReflect` / `GetTypeRegistration` implementations) and of the
runtime `DynamicTupleStruct` operations, together with theorems settling the
specification claims about them.

Source files embedded:
- `crates/bevy_reflect/bevy_reflect_derive/src/container_attributes.rs`
- `crates/bevy_reflect/bevy_reflect_derive/src/derive_data.rs`
- `crates/bevy_reflect/bevy_reflect_derive/src/from_reflect.rs`
- `crates/bevy_reflect/bevy_reflect_derive/src/registration.rs`
- `crates/bevy_reflect/src/tuple_struct.rs`
-/

/-! ### Primitive syn/proc-macro model -/

/-- A source location (`proc_macro2::Span`), modelled as a plain number. -/
abbrev Span := Nat

/-- The span produced by `Span::call_site()`. -/
def call_site : Span := 0

/-- A `syn::Error`: a message pinned to a source span. -/
structure SynError where
  span : Span
  msg : String
deriving Repr, DecidableEq

/-- The result type of fallible parse operations (`syn::Result<T>`). -/
abbrev SynResult (α : Type) := Except SynError α

/-- A `proc_macro2::Ident`: a name plus a span.  Equality against a string
(as used by `add_unique_ident`) compares the name only. -/
structure Ident where
  name : String
  span : Span
deriving Repr, DecidableEq

/-- A `syn::LitBool`: a boolean literal with its span. -/
structure LitBool where
  value : Bool
  span : Span
deriving Repr, DecidableEq

/-- A `syn::ExprPath` / `syn::Path`, modelled as its rendered path text plus span. -/
structure ExprPath where
  path : String
  span : Span
deriving Repr, DecidableEq

/-! ### Provenance (`derive_data.rs` context consumed by the attribute parser)

The enums below are referenced from `container_attributes.rs`
(`ReflectImplSource`, `ReflectTraitToImpl`, `ReflectTypeKind`,
`ReflectProvenance`); their declarations live in a part of `derive_data.rs`
not present in this source snapshot. -/

/-- Modelled from the spec: which macro entry point is running — deriving a
locally-defined type, or `impl_reflect` for a remote type ("whether the type
is locally defined").  `parse_container_default` tests
`provenance.source == ReflectImplSource::DeriveLocalType`. -/
inductive ReflectImplSource where
  | ImplRemoteType
  | DeriveLocalType
deriving Repr, DecidableEq

/-- Modelled from the spec: which trait's derive is running ("which derive
operation is running").  Used by `parse_from_reflect` / `parse_type_path`. -/
inductive ReflectTraitToImpl where
  | Reflect
  | FromReflect
  | TypePath
deriving Repr, DecidableEq

/-- Modelled from the spec: the declared shape being derived ("on what declared
shape").  `parse_container_default` tests
`matches!(provenance.type_kind, Struct | TupleStruct)`. -/
inductive ReflectTypeKind where
  | Struct
  | TupleStruct
  | UnitStruct
  | Enum
  | Value
deriving Repr, DecidableEq

/-- The provenance context handed to the attribute parser. -/
structure ReflectProvenance where
  source : ReflectImplSource
  trait_ : ReflectTraitToImpl
  type_kind : ReflectTypeKind
deriving Repr, DecidableEq

/-! ### Attribute token model

One comma-separated item of a `#[reflect(...)]` list, classified by the token
shapes the parser's `lookahead1` / `peek` calls distinguish. -/

/-- The expression on the right of `name = value` inside an attribute list. -/
inductive AttrExpr where
  /-- A boolean literal (`true` / `false`). -/
  | litBool (value : Bool) (span : Span)
  /-- A path expression (e.g. `my_func`). -/
  | exprPath (path : String) (span : Span)
  /-- Any other expression. -/
  | other (span : Span)
deriving Repr, DecidableEq

/-- The span of an `AttrExpr` (used when a path was expected). -/
def AttrExpr.span : AttrExpr → Span
  | .litBool _ sp => sp
  | .exprPath _ sp => sp
  | .other sp => sp

/-- One comma-separated item of a container attribute list. -/
inductive AttrItem where
  /-- The `where <predicates>` (the predicates as rendered strings). -/
  | whereClause (preds : List String) (span : Span)
  /-- A lone identifier, e.g. `Debug` or `MyTrait`. -/
  | bare (ident : Ident)
  /-- An identifier followed by a parenthesized path, e.g. `Hash(my_fn)`. -/
  | withParen (ident : Ident) (arg : String)
  /-- The `name = expr`, e.g. `from_reflect = false`. -/
  | nameValue (ident : Ident) (value : AttrExpr)
  /-- An item whose leading token is neither `where` nor an identifier. -/
  | otherTok (span : Span)
deriving Repr, DecidableEq

/-- The span of the item's leading token (`input.span()`). -/
def AttrItem.span : AttrItem → Span
  | .whereClause _ sp => sp
  | .bare i => i.span
  | .withParen i _ => i.span
  | .nameValue i _ => i.span
  | .otherTok sp => sp

/-- The `lookahead.peek(Token![where])`: true iff the item starts with `where`. -/
def AttrItem.peekWhere : AttrItem → Bool
  | .whereClause _ _ => true
  | _ => false

/-- The `lookahead.peek(kw::<kw>)`: true iff the item starts with the identifier `kw`. -/
def AttrItem.peekKw (kw : String) : AttrItem → Bool
  | .bare i => i.name == kw
  | .withParen i _ => i.name == kw
  | .nameValue i _ => i.name == kw
  | _ => false

/-- The `lookahead.peek(Ident::peek_any)`: true iff the item starts with any identifier. -/
def AttrItem.peekIdentAny : AttrItem → Bool
  | .bare _ => true
  | .withParen _ _ => true
  | .nameValue _ _ => true
  | _ => false

/-! ### `container_attributes.rs` -/

/-- The `CONFLICTING_TYPE_DATA_MESSAGE`. -/
def CONFLICTING_TYPE_DATA_MESSAGE : String := "conflicting type data registration"

/-- The `FROM_REFLECT_ATTR`. -/
def FROM_REFLECT_ATTR : String := "from_reflect"

/-- The `TYPE_PATH_ATTR`. -/
def TYPE_PATH_ATTR : String := "type_path"

/-- The `CONTAINER_DEFAULT_ATTR`. -/
def CONTAINER_DEFAULT_ATTR : String := "container_default"

/-- A marker for trait implementations registered via the `Reflect` derive
macro (`TraitImpl`). -/
inductive TraitImpl where
  /-- The trait is not registered as implemented. -/
  | NotImplemented
  /-- The trait is registered as implemented. -/
  | Implemented (span : Span)
  /-- The trait is registered with a custom function. -/
  | Custom (path : String) (span : Span)
deriving Repr, DecidableEq

/-- The `TraitImpl::merge`: keep whichever side is not `NotImplemented`; both
non-`NotImplemented` is a conflict error at the second occurrence's span. -/
def TraitImpl.merge : TraitImpl → TraitImpl → SynResult TraitImpl
  | .NotImplemented, value => .ok value
  | s, .NotImplemented => .ok s
  | _, .Implemented span => .error ⟨span, CONFLICTING_TYPE_DATA_MESSAGE⟩
  | _, .Custom _ span => .error ⟨span, CONFLICTING_TYPE_DATA_MESSAGE⟩

/-- The `FromReflectAttrs`: attributes for the `FromReflect` implementation. -/
structure FromReflectAttrs where
  auto_derive : Option LitBool := none
  container_default : Option ExprPath := none
deriving Repr, DecidableEq

/-- The `FromReflectAttrs::should_auto_derive`: defaults to true when unset. -/
def FromReflectAttrs.should_auto_derive (self : FromReflectAttrs) : Bool :=
  (self.auto_derive.map (·.value)).getD true

/-- The `FromReflectAttrs::insert_container_default`: errors (at the first
occurrence's span) if `container_default` is already set. -/
def FromReflectAttrs.insert_container_default (self : FromReflectAttrs)
    (container_default : ExprPath) : SynResult FromReflectAttrs :=
  match self.container_default with
  | some old => .error ⟨old.span, "`" ++ CONTAINER_DEFAULT_ATTR ++ "` already set"⟩
  | none => .ok { self with container_default := some container_default }

/-- The `FromReflectAttrs::merge`: an `auto_derive` set on both sides must agree
(the error names the attribute and the already-set value); a
`container_default` on the other side is inserted via
`insert_container_default`. -/
def FromReflectAttrs.merge (self other : FromReflectAttrs) : SynResult FromReflectAttrs := do
  let self ←
    match other.auto_derive with
    | some new =>
      match self.auto_derive with
      | some existing =>
        if existing.value != new.value then
          .error ⟨new.span,
            "`" ++ FROM_REFLECT_ATTR ++ "` already set to " ++ toString existing.value⟩
        else
          .ok self
      | none => .ok { self with auto_derive := some new }
    | none => .ok self
  match other.container_default with
  | some container_default => self.insert_container_default container_default
  | none => .ok self

/-- The `TypePathAttrs`: attributes for deriving `TypePath` via `Reflect`. -/
structure TypePathAttrs where
  auto_derive : Option LitBool := none
deriving Repr, DecidableEq

/-- The `TypePathAttrs::should_auto_derive`: defaults to true when unset. -/
def TypePathAttrs.should_auto_derive (self : TypePathAttrs) : Bool :=
  (self.auto_derive.map (·.value)).getD true

/-- The `TypePathAttrs::merge`: an `auto_derive` set on both sides must agree. -/
def TypePathAttrs.merge (self other : TypePathAttrs) : SynResult TypePathAttrs :=
  match other.auto_derive with
  | some new =>
    match self.auto_derive with
    | some existing =>
      if existing.value != new.value then
        .error ⟨new.span,
          "`" ++ TYPE_PATH_ATTR ++ "` already set to " ++ toString existing.value⟩
      else
        .ok self
    | none => .ok { self with auto_derive := some new }
  | none => .ok self

/-- The `ContainerAttributes`: the collection of traits and toggles registered for
a reflected type via `#[reflect(...)]`. -/
structure ContainerAttributes where
  debug : TraitImpl := .NotImplemented
  hash : TraitImpl := .NotImplemented
  partial_eq : TraitImpl := .NotImplemented
  from_reflect_attrs : FromReflectAttrs := {}
  type_path_attrs : TypePathAttrs := {}
  custom_where : Option (List String) := none
  no_field_bounds : Bool := false
  idents : List Ident := []
deriving Repr, DecidableEq

/-- The `ContainerAttributes::default()`. -/
def ContainerAttributes.default : ContainerAttributes := {}

/-- The `get_reflect_ident` (from `utility.rs`, not in this snapshot; its behavior
is documented in `container_attributes.rs`: `#[reflect(MyTrait)]` registers
`ReflectMyTrait`, and a multi-segment path would "try to register
`Reflectstd`").  The resulting ident's span is reset to the original ident's
span so diagnostics point at user code. -/
def get_reflect_ident (name : String) (span : Span) : Ident :=
  ⟨"Reflect" ++ name, span⟩

/-- The `add_unique_ident`: appends `ident` unless an ident with the same name is
already present, in which case it is a conflict error. -/
def add_unique_ident (idents : List Ident) (ident : Ident) : SynResult (List Ident) :=
  let ident_name := ident.name
  if idents.any (fun i => i.name == ident_name) then
    .error ⟨ident.span, CONFLICTING_TYPE_DATA_MESSAGE⟩
  else
    .ok (idents ++ [ident])

/-- The `extract_bool`: the value must be a boolean literal; the mapper lets the
caller replace it. -/
def extract_bool (value : AttrExpr) (mapper : LitBool → LitBool) : SynResult LitBool :=
  match value with
  | .litBool b sp => .ok (mapper ⟨b, sp⟩)
  | .exprPath _ sp => .error ⟨sp, "Expected a boolean value"⟩
  | .other sp => .error ⟨sp, "Expected a boolean value"⟩

/-- The `ContainerAttributes::parse_custom_where`: stores the `where` clause's
predicate list. -/
def ContainerAttributes.parse_custom_where (self : ContainerAttributes)
    (input : AttrItem) : SynResult ContainerAttributes :=
  match input with
  | .whereClause preds _ => .ok { self with custom_where := some preds }
  | item => .error ⟨item.span, "expected `where`"⟩

/-- The `ContainerAttributes::parse_from_reflect`: parses `from_reflect = <bool>`;
when the running derive is `FromReflect` itself, the literal is overridden to
`true` at the call site. -/
def ContainerAttributes.parse_from_reflect (self : ContainerAttributes)
    (input : AttrItem) (trait_ : ReflectTraitToImpl) : SynResult ContainerAttributes :=
  match input with
  | .nameValue _ value => do
    let value ← extract_bool value (fun lit =>
      if trait_ = ReflectTraitToImpl.FromReflect then ⟨true, call_site⟩ else lit)
    .ok { self with from_reflect_attrs := { self.from_reflect_attrs with auto_derive := some value } }
  | item => .error ⟨item.span, "expected `=`"⟩

/-- The `ContainerAttributes::parse_type_path`: parses `type_path = <bool>`;
when the running derive is `TypePath` itself, the literal is overridden to
`true` at the call site. -/
def ContainerAttributes.parse_type_path (self : ContainerAttributes)
    (input : AttrItem) (trait_ : ReflectTraitToImpl) : SynResult ContainerAttributes :=
  match input with
  | .nameValue _ value => do
    let value ← extract_bool value (fun lit =>
      if trait_ = ReflectTraitToImpl.TypePath then ⟨true, call_site⟩ else lit)
    .ok { self with type_path_attrs := { self.type_path_attrs with auto_derive := some value } }
  | item => .error ⟨item.span, "expected `=`"⟩

/-- The `ContainerAttributes::parse_no_field_bounds`. -/
def ContainerAttributes.parse_no_field_bounds (self : ContainerAttributes)
    (input : AttrItem) : SynResult ContainerAttributes :=
  match input with
  | .bare _ => .ok { self with no_field_bounds := true }
  | item => .error ⟨item.span, "expected `,`"⟩

/-- The `ContainerAttributes::parse_debug`.  Note: the parenthesized custom form
goes through `TraitImpl::merge`, but the bare form *assigns* the slot
directly. -/
def ContainerAttributes.parse_debug (self : ContainerAttributes)
    (input : AttrItem) : SynResult ContainerAttributes :=
  match input with
  | .withParen ident path => do
    let debug ← self.debug.merge (.Custom path ident.span)
    .ok { self with debug }
  | .bare ident => .ok { self with debug := .Implemented ident.span }
  | item => .error ⟨item.span, "expected `,`"⟩

/-- The `ContainerAttributes::parse_partial_eq`.  Same shape as `parse_debug`. -/
def ContainerAttributes.parse_partial_eq (self : ContainerAttributes)
    (input : AttrItem) : SynResult ContainerAttributes :=
  match input with
  | .withParen ident path => do
    let partial_eq ← self.partial_eq.merge (.Custom path ident.span)
    .ok { self with partial_eq }
  | .bare ident => .ok { self with partial_eq := .Implemented ident.span }
  | item => .error ⟨item.span, "expected `,`"⟩

/-- The `ContainerAttributes::parse_hash`.  Same shape as `parse_debug`. -/
def ContainerAttributes.parse_hash (self : ContainerAttributes)
    (input : AttrItem) : SynResult ContainerAttributes :=
  match input with
  | .withParen ident path => do
    let hash ← self.hash.merge (.Custom path ident.span)
    .ok { self with hash }
  | .bare ident => .ok { self with hash := .Implemented ident.span }
  | item => .error ⟨item.span, "expected `,`"⟩

/-- The `ContainerAttributes::parse_ident`: a parenthesized argument is rejected
(custom functions are only for the three special traits); otherwise the
`Reflect`-prefixed ident is registered via `add_unique_ident`.  For a
`name = value` item the ident parses and registers, but the leftover `=` then
fails the comma-terminated list parse. -/
def ContainerAttributes.parse_ident (self : ContainerAttributes)
    (input : AttrItem) : SynResult ContainerAttributes :=
  match input with
  | .withParen ident _ =>
    .error ⟨ident.span,
      "only [\"Debug\", \"PartialEq\", \"Hash\"] may specify custom functions"⟩
  | .bare ident => do
    let reflect_ident := get_reflect_ident ident.name ident.span
    let idents ← add_unique_ident self.idents reflect_ident
    .ok { self with idents }
  | .nameValue ident _ => do
    let reflect_ident := get_reflect_ident ident.name ident.span
    let _ ← add_unique_ident self.idents reflect_ident
    .error ⟨ident.span, "expected `,`"⟩
  | item => .error ⟨item.span, "expected identifier"⟩

/-- The `ContainerAttributes::parse_container_default`: rejects a local-type
provenance (only for `impl_reflect`) and a non-struct shape, then parses
`container_default = <path>`. -/
def ContainerAttributes.parse_container_default (self : ContainerAttributes)
    (input : AttrItem) (provenance : ReflectProvenance) : SynResult ContainerAttributes :=
  if provenance.source = ReflectImplSource.DeriveLocalType then
    .error ⟨input.span,
      "`#[reflect(" ++ CONTAINER_DEFAULT_ATTR ++
        " = ...)]` is only applicable when using `impl_reflect`."⟩
  else if ¬(provenance.type_kind = ReflectTypeKind.Struct ∨
      provenance.type_kind = ReflectTypeKind.TupleStruct) then
    .error ⟨input.span,
      "`#[reflect(" ++ CONTAINER_DEFAULT_ATTR ++ " = ...)]` is only applicable on structs."⟩
  else
    match input with
    | .nameValue _ (.exprPath p sp) => do
      let from_reflect_attrs ← self.from_reflect_attrs.insert_container_default ⟨p, sp⟩
      .ok { self with from_reflect_attrs }
    | .nameValue _ v => .error ⟨v.span, "expected identifier"⟩
    | item => .error ⟨item.span, "expected `=`"⟩

/-- The `ContainerAttributes::parse_container_attribute`: the fixed lookahead
dispatch over one comma-separated item.  The branch order mirrors the source:
note that the `Ident::peek_any` branch precedes the `kw::container_default`
branch. -/
def ContainerAttributes.parse_container_attribute (self : ContainerAttributes)
    (input : AttrItem) (provenance : ReflectProvenance) : SynResult ContainerAttributes :=
  if input.peekWhere then
    self.parse_custom_where input
  else if input.peekKw FROM_REFLECT_ATTR then
    self.parse_from_reflect input provenance.trait_
  else if input.peekKw TYPE_PATH_ATTR then
    self.parse_type_path input provenance.trait_
  else if input.peekKw "no_field_bounds" then
    self.parse_no_field_bounds input
  else if input.peekKw "Debug" then
    self.parse_debug input
  else if input.peekKw "PartialEq" then
    self.parse_partial_eq input
  else if input.peekKw "Hash" then
    self.parse_hash input
  else if input.peekIdentAny then
    self.parse_ident input
  else if input.peekKw CONTAINER_DEFAULT_ATTR then
    self.parse_container_default input provenance
  else
    .error ⟨input.span, "unexpected token"⟩

/-- The `ContainerAttributes::parse_terminated`: folds the comma-separated items
into an initially-default `ContainerAttributes`. -/
def ContainerAttributes.parse_terminated (items : List AttrItem)
    (provenance : ReflectProvenance) : SynResult ContainerAttributes :=
  items.foldlM (fun s item => s.parse_container_attribute item provenance)
    ContainerAttributes.default

/-- The `ContainerAttributes::merge_custom_where`: predicate lists concatenate;
an absent side yields the other. -/
def ContainerAttributes.merge_custom_where :
    Option (List String) → Option (List String) → Option (List String)
  | some this, some other => some (this ++ other)
  | none, some other => some other
  | this, none => this

/-- The `ContainerAttributes::merge`: merges every field, erroring on conflicting
registrations. -/
def ContainerAttributes.merge (self other : ContainerAttributes) :
    SynResult ContainerAttributes := do
  let debug ← self.debug.merge other.debug
  let hash ← self.hash.merge other.hash
  let partial_eq ← self.partial_eq.merge other.partial_eq
  let from_reflect_attrs ← self.from_reflect_attrs.merge other.from_reflect_attrs
  let type_path_attrs ← self.type_path_attrs.merge other.type_path_attrs
  let custom_where := ContainerAttributes.merge_custom_where self.custom_where other.custom_where
  let no_field_bounds := self.no_field_bounds || other.no_field_bounds
  let idents ← other.idents.foldlM add_unique_ident self.idents
  .ok ⟨debug, hash, partial_eq, from_reflect_attrs, type_path_attrs,
    custom_where, no_field_bounds, idents⟩

/-! ### `derive_data.rs`: `ReflectDerive::from_input` mode analysis

The attribute scan over a declaration's attributes: tracking the reflect mode
(`#[reflect(...)]` vs `#[reflect_value(...)]` vs `#[reflect_value]`), merging
each occurrence's parsed trait list, and recording a `#[type_path = "..."]`
alias.  The nested-meta parsing of an occurrence's contents
(`ReflectTraits::from_nested_metas`, whose declaration is not in this source
snapshot) is abstracted as the occurrence's pre-parsed result, and the
`#[type_path = "..."]` literal check plus path parse
(`parse_path_no_leading_colon`) as the attribute's pre-parsed alias result.
The downstream shape dispatch (struct/enum/union) consumes the scan's output
and is not modelled here. -/

/-- The `ReflectMode`: the method in which the type should be reflected. -/
inductive ReflectMode where
  | Normal
  | Value
deriving Repr, DecidableEq

/-- One attribute on the declaration, as classified by `from_input`'s match. -/
inductive InputAttr where
  /-- The `#[reflect(...)]` with the parse result of its contents. -/
  | reflectList (parsed : SynResult ContainerAttributes) (span : Span)
  /-- The `#[reflect_value(...)]` with the parse result of its contents. -/
  | reflectValueList (parsed : SynResult ContainerAttributes) (span : Span)
  /-- Bare `#[reflect_value]`. -/
  | reflectValuePath (span : Span)
  /-- The `#[type_path = <lit>]` with the combined literal-check/path-parse result. -/
  | typePathNameValue (aliasResult : SynResult String) (span : Span)
  /-- Any other attribute (skipped by the scan). -/
  | otherAttr

/-- The error message for combining the two mode-selecting attributes. -/
def CANNOT_USE_BOTH_MESSAGE : String :=
  "cannot use both `#[reflect]` and `#[reflect_value]`"

/-- The state accumulated by `from_input`'s attribute loop. -/
structure FromInputScan where
  reflect_mode : Option ReflectMode
  traits : ContainerAttributes
  type_path_alias : Option String
deriving Repr, DecidableEq

/-- One iteration of `from_input`'s attribute loop. -/
def from_input_step (st : FromInputScan) (attr : InputAttr) : SynResult FromInputScan :=
  match attr with
  | .reflectList parsed span =>
    if ¬(st.reflect_mode = none ∨ st.reflect_mode = some ReflectMode.Normal) then
      .error ⟨span, CANNOT_USE_BOTH_MESSAGE⟩
    else do
      let new_traits ← parsed
      let traits ← st.traits.merge new_traits
      .ok { st with reflect_mode := some ReflectMode.Normal, traits }
  | .reflectValueList parsed span =>
    if ¬(st.reflect_mode = none ∨ st.reflect_mode = some ReflectMode.Value) then
      .error ⟨span, CANNOT_USE_BOTH_MESSAGE⟩
    else do
      let new_traits ← parsed
      let traits ← st.traits.merge new_traits
      .ok { st with reflect_mode := some ReflectMode.Value, traits }
  | .reflectValuePath span =>
    if ¬(st.reflect_mode = none ∨ st.reflect_mode = some ReflectMode.Value) then
      .error ⟨span, CANNOT_USE_BOTH_MESSAGE⟩
    else
      .ok { st with reflect_mode := some ReflectMode.Value }
  | .typePathNameValue aliasResult span =>
    if st.type_path_alias.isSome then
      .error ⟨span, "cannot use multuple `#[type_path = \"...\"]`"⟩
    else do
      let aliasValue ← aliasResult
      .ok { st with type_path_alias := some aliasValue }
  | .otherAttr => .ok st

/-- The `ReflectDerive::from_input`, up to mode resolution: scans the attributes
and resolves the reflect mode (`reflect_mode.unwrap_or(ReflectMode::Normal)`),
yielding the mode, the merged traits, and the optional type-path alias. -/
def from_input (attrs : List InputAttr) :
    SynResult (ReflectMode × ContainerAttributes × Option String) := do
  let st ← attrs.foldlM from_input_step
    ⟨none, ContainerAttributes.default, none⟩
  .ok (st.reflect_mode.getD ReflectMode.Normal, st.traits, st.type_path_alias)

/-- Whether an attribute is a `#[reflect(...)]` occurrence. -/
def InputAttr.isReflectList : InputAttr → Prop
  | .reflectList _ _ => True
  | _ => False

/-- Whether an attribute is a `#[reflect_value(...)]` or bare `#[reflect_value]`
occurrence. -/
def InputAttr.isReflectValue : InputAttr → Prop
  | .reflectValueList _ _ => True
  | .reflectValuePath _ => True
  | _ => False

/-- Whether an attribute selects a reflect mode at all. -/
def InputAttr.isModeSelecting : InputAttr → Prop
  | .reflectList _ _ => True
  | .reflectValueList _ _ => True
  | .reflectValuePath _ => True
  | _ => False

/-! ### `registration.rs`: `impl_get_type_registration`

The generated `GetTypeRegistration::get_type_registration` body is a sequence
of `registration.insert::<...>(...)` calls; the emission is modelled as the
ordered list of inserted capability records. -/

/-- One `registration.insert` call emitted by `impl_get_type_registration`. -/
inductive RegistrationInsert where
  /-- The `registration.insert::<ReflectFromPtr>(FromType::<Self>::from_type())`. -/
  | ReflectFromPtr
  /-- The `registration.insert::<SerializationData>(SerializationData::new(ignored_indices))`. -/
  | SerializationData (ignored_indices : List Nat)
  /-- The `registration.insert::<#ident>(FromType::<Self>::from_type())` for one
  registered marker ident. -/
  | TypeData (ident : String)
deriving Repr, DecidableEq

/-- The `impl_get_type_registration`: the ordered insert sequence of the emitted
`get_type_registration` body, given the marker idents in their registration
order (`meta.traits().idents()`) and the optional serialization denylist
(present only for struct shapes; its indices in the bit-set's ascending
iteration order). -/
def impl_get_type_registration (registration_data : List String)
    (serialization_denylist : Option (List Nat)) : List RegistrationInsert :=
  let serialization_data :=
    match serialization_denylist with
    | some denylist => [RegistrationInsert.SerializationData denylist]
    | none => []
  [RegistrationInsert.ReflectFromPtr] ++ serialization_data ++
    registration_data.map RegistrationInsert.TypeData

/-! ### `from_reflect.rs` (derive): semantics of the generated code

The generated `FromReflect::from_reflect` bodies are embedded as functions on
an abstract value model: `V` is the concrete Rust field-value type, `D` the
loosely-typed (`dyn Reflect`) field representation, `A` the field accessor
(a name for structs, an index for tuple structs). -/

/-- The `field_attributes::DefaultBehavior` (declared in `field_attributes.rs`,
not in this snapshot), specialized to the generated program's runtime: the
payload of `Default` is the field type's `Default::default()` value and the
payload of `Func` is the user default function's result. -/
inductive DefaultBehavior (V : Type) where
  /-- Absence of the field fails the active-field closure. -/
  | Required
  /-- Absence of the field falls back to the field type's intrinsic default. -/
  | Default (value : V)
  /-- Absence of the field falls back to the user-supplied function's value. -/
  | Func (value : V)
deriving Repr, DecidableEq

/-- One active (non-ignored) field of a struct or tuple struct, with the data
the generated code uses: its accessor on the loosely-typed input, its member
position in `Self`, its default behavior, and its type's
`FromReflect::from_reflect` conversion. -/
structure ActiveField (A V D : Type) where
  accessor : A
  index : Nat
  behavior : DefaultBehavior V
  from_reflect : D → Option V

/-- The closure generated by `get_active_fields` for one active field: given
`Struct::field`/`TupleStruct::field`'s result for the accessor, produce
`Some(value)` or `None`.  A present field is converted with `from_reflect`
(which may fail); an absent field yields the behavior's fallback, or `None`
for `Required`. -/
def active_field_closure {A V D : Type} (f : ActiveField A V D)
    (get_field : Option D) : Option V :=
  match f.behavior with
  | .Func fallback =>
    match get_field with
    | some field => f.from_reflect field
    | none => some fallback
  | .Default fallback =>
    match get_field with
    | some field => f.from_reflect field
    | none => some fallback
  | .Required =>
    match get_field with
    | some field => f.from_reflect field
    | none => none

/-- The loosely-typed input to a generated struct/tuple-struct `from_reflect`:
either the matching struct kind (exposing `field` lookup by accessor) or any
other `ReflectRef` kind. -/
inductive StructReflectRef (A D : Type) where
  | StructKind (field : A → Option D)
  | NonStructKind

/-- One per-active-field block of the generated container-default constructor:
`if let Some(__field) = closure() { __this.member = __field; }`.  `Self` is
modelled as the list of all field values in member order, so the member
assignment is `List.set` at the field's index. -/
def overlay_field_step {A V D : Type} (field : A → Option D)
    (this : List V) (f : ActiveField A V D) : List V :=
  match active_field_closure f (field f.accessor) with
  | some value => this.set f.index value
  | none => this

/-- The generated `from_reflect` body for a struct whose attributes selected
the container-level default strategy (`traits.contains(REFLECT_DEFAULT)`):
on the matching `ReflectRef` kind, `let mut __this: Self = Default::default();`
(`default_this`), then the per-field overlay blocks in active-field order,
finally `Some(__this)`; any other `ReflectRef` kind yields `None`. -/
def from_reflect_with_container_default {A V D : Type}
    (default_this : List V) (active_fields : List (ActiveField A V D))
    (reflect : StructReflectRef A D) : Option (List V) :=
  match reflect with
  | .StructKind field =>
    some (active_fields.foldl (overlay_field_step field) default_this)
  | .NonStructKind => none

/-- The loosely-typed input to a generated enum `from_reflect`: either the
enum kind (exposing `Enum::variant_name` and the variant's field data) or any
other `ReflectRef` kind. -/
inductive EnumReflectRef (D : Type) where
  | EnumKind (variant_name : String) (data : D)
  | NonEnumKind

/-- The outcome of running a generated `from_reflect` body that may panic. -/
inductive FromReflectOutcome (α : Type) where
  /-- The `Some(value)`. -/
  | Some (value : α)
  /-- The `None`. -/
  | None
  /-- The `panic!` with the given message. -/
  | Panicked (message : String)
deriving Repr, DecidableEq

/-- The generated enum `from_reflect` body (`impl_enum`): match on
`Enum::variant_name`, with one arm per declared variant (its constructor
consuming the variant data), and a catch-all arm that panics naming the
unmatched variant and `type_name::<Self>()`; a non-enum input yields `None`.
The declared variants are given as `(name, constructor)` pairs in declaration
order; the match takes the first arm whose name equals the input's. -/
def enum_from_reflect {D α : Type} (variants : List (String × (D → α)))
    (type_name : String) (reflect : EnumReflectRef D) : FromReflectOutcome α :=
  match reflect with
  | .EnumKind name data =>
    match variants.find? (fun v => v.1 == name) with
    | some v => .Some (v.2 data)
    | none =>
      .Panicked ("variant with name `" ++ name ++ "` does not exist on enum `" ++
        type_name ++ "`")
  | .NonEnumKind => .None

/-! ### `tuple_struct.rs` (runtime)

`dyn PartialReflect` values are abstracted to a type `α`; the pairwise
`Reflect::reflect_partial_eq` dispatch becomes an explicit parameter `peq`.
A `TupleStruct` implementor is abstracted to its field list (its `field`,
`field_len` and `iter_fields` views are the list's). -/

/-- The `ReflectRef` kind of a compared value, with the payload the
`tuple_struct_partial_eq` code inspects. -/
inductive PartialReflectValue (α : Type) where
  | Struct
  | TupleStruct (fields : List α)
  | Tuple
  | List
  | Array
  | Map
  | Enum
  | Value
deriving Repr, DecidableEq

/-- Whether a `PartialReflectValue`'s reflected kind is tuple-struct. -/
def PartialReflectValue.isTupleStruct {α : Type} : PartialReflectValue α → Prop
  | .TupleStruct _ => True
  | _ => False

/-- The `for (i, value) in tuple_struct.iter_fields().enumerate()` loop of
`tuple_struct_partial_eq`: `value` ranges over `b`'s remaining fields, `i` is
the running index into `a`.  A missing `a.field(i)` returns `Some(false)`; a
pairwise result of `Some(false)` or `None` is returned as-is. -/
def tuple_struct_partial_eq_loop {α : Type} (peq : α → α → Option Bool)
    (a : List α) : List α → Nat → Option Bool
  | [], _ => some true
  | value :: rest, i =>
    match a[i]? with
    | some field_value =>
      match peq field_value value with
      | some true => tuple_struct_partial_eq_loop peq a rest (i + 1)
      | some false => some false
      | none => none
    | none => some false

/-- The `tuple_struct_partial_eq`: `Some(false)` unless `b` is a tuple struct of
the same field count; then the pairwise loop. -/
def tuple_struct_partial_eq {α : Type} (peq : α → α → Option Bool)
    (a : List α) (b : PartialReflectValue α) : Option Bool :=
  match b with
  | .TupleStruct fields =>
    if a.length ≠ fields.length then
      some false
    else
      tuple_struct_partial_eq_loop peq a fields 0
  | _ => some false

/-- The `DynamicTupleStruct`: a tuple struct assembled at runtime. -/
structure DynamicTupleStruct (α : Type) where
  name : String
  fields : List α
deriving Repr, DecidableEq

/-- The `DynamicTupleStruct::insert_boxed`: appends the value (`Vec::push`). -/
def DynamicTupleStruct.insert_boxed {α : Type} (self : DynamicTupleStruct α)
    (value : α) : DynamicTupleStruct α :=
  { self with fields := self.fields ++ [value] }

/-- The `TupleStruct::field` for `DynamicTupleStruct`: `self.fields.get(index)`. -/
def DynamicTupleStruct.field {α : Type} (self : DynamicTupleStruct α)
    (index : Nat) : Option α :=
  self.fields[index]?

/-- The `TupleStruct::field_len` for `DynamicTupleStruct`. -/
def DynamicTupleStruct.field_len {α : Type} (self : DynamicTupleStruct α) : Nat :=
  self.fields.length

/-! ### Witness fixtures -/

/-- A concrete pairwise comparison used by witnesses: values compare by
equality, except that the value `9` yields the no-answer signal. -/
def peqW : Nat → Nat → Option Bool :=
  fun x y => if x = 9 then none else some (x == y)

/-- A concrete two-field `DynamicTupleStruct` used by witnesses. -/
def dtsW : DynamicTupleStruct Nat := ⟨"my_tuple", [10, 20]⟩

/-! ### Helper lemmas -/

@[simp]
theorem except_bind_ok {α β : Type} (a : α) (f : α → SynResult β) :
    (Except.ok a >>= f : SynResult β) = f a := rfl

@[simp]
theorem except_bind_error {α β : Type} (e : SynError) (f : α → SynResult β) :
    ((Except.error e : SynResult α) >>= f) = .error e := rfl

theorem list_isSome_getElem? {α : Type} (l : List α) (i : Nat) :
    (l[i]?).isSome ↔ i < l.length := by
  rw [Option.isSome_iff_exists]
  constructor
  · rintro ⟨a, ha⟩; exact (List.getElem?_eq_some.mp ha).1
  · intro h; exact ⟨l[i], List.getElem?_eq_getElem h⟩

theorem traitImpl_merge_conflict {x y : TraitImpl}
    (hx : x ≠ .NotImplemented) (hy : y ≠ .NotImplemented) :
    ∃ e, x.merge y = .error e := by
  cases x <;> cases y <;> first
    | exact absurd rfl hx
    | exact absurd rfl hy
    | exact ⟨_, rfl⟩

theorem traitImpl_merge_ni_left (y : TraitImpl) :
    TraitImpl.merge .NotImplemented y = .ok y := by cases y <;> rfl

theorem traitImpl_merge_conflict_msg {x y : TraitImpl}
    (hx : x ≠ .NotImplemented) (hy : y ≠ .NotImplemented) :
    ∃ sp, x.merge y = .error ⟨sp, CONFLICTING_TYPE_DATA_MESSAGE⟩ := by
  cases x <;> cases y <;> first
    | exact absurd rfl hx
    | exact absurd rfl hy
    | exact ⟨_, rfl⟩

theorem traitImpl_merge_ok_of_not_both {x y : TraitImpl}
    (h : x = .NotImplemented ∨ y = .NotImplemented) :
    ∃ v, x.merge y = .ok v := by
  rcases h with rfl | rfl
  · exact ⟨y, traitImpl_merge_ni_left y⟩
  · cases x <;> exact ⟨_, rfl⟩

/-! ### C10 -/

/-- C10: `DynamicTupleStruct::insert_boxed` appends exactly one field: the
length grows by one, the new last field is the inserted value, every earlier
field is unchanged, `field i` is `Some` exactly when `i < field_len`, and the
name is untouched. -/
theorem C10_insert_boxed_frame {α : Type} (d : DynamicTupleStruct α) (v : α) :
    ((d.insert_boxed v).field_len = d.field_len + 1) ∧
    ((d.insert_boxed v).field d.field_len = some v) ∧
    (∀ i, i < d.field_len → (d.insert_boxed v).field i = d.field i) ∧
    (∀ (d' : DynamicTupleStruct α) (i : Nat), (d'.field i).isSome ↔ i < d'.field_len) ∧
    ((d.insert_boxed v).name = d.name) := by
  refine ⟨?_, ?_, ?_, ?_, rfl⟩
  · simp [DynamicTupleStruct.insert_boxed, DynamicTupleStruct.field_len]
  · simp only [DynamicTupleStruct.insert_boxed, DynamicTupleStruct.field,
      DynamicTupleStruct.field_len]
    exact List.getElem?_concat_length _ _
  · intro i hi
    simp only [DynamicTupleStruct.insert_boxed, DynamicTupleStruct.field,
      DynamicTupleStruct.field_len] at *
    exact List.getElem?_append_left hi
  · intro d' i
    exact list_isSome_getElem? d'.fields i

/-- Witness for C10 at the concrete two-field tuple struct `dtsW`. -/
theorem C10_witness :
    ((dtsW.insert_boxed 30).field_len = dtsW.field_len + 1) ∧
    ((dtsW.insert_boxed 30).field dtsW.field_len = some 30) ∧
    ((dtsW.insert_boxed 30).field 1 = dtsW.field 1) ∧
    ((dtsW.field 1).isSome ↔ 1 < dtsW.field_len) ∧
    ((dtsW.insert_boxed 30).name = dtsW.name) := by
  obtain ⟨h1, h2, h3, h4, h5⟩ := C10_insert_boxed_frame dtsW 30
  exact ⟨h1, h2, h3 1 (by decide), h4 dtsW 1, h5⟩

/-! ### C8 -/

/-- C8: the emitted `get_type_registration` body inserts the
`ReflectFromPtr` capability first, then (exactly when a denylist was
supplied) one `SerializationData` record parameterized by the ignored
indices, then one capability per registered marker ident in registration
order: the marker at position `k` of the ident list is inserted at position
`k + 2` (resp. `k + 1` without a denylist). -/
theorem C8_registration_insert_order (registration_data : List String)
    (denylist : List Nat) :
    (impl_get_type_registration registration_data (some denylist) =
      RegistrationInsert.ReflectFromPtr :: RegistrationInsert.SerializationData denylist ::
        registration_data.map RegistrationInsert.TypeData) ∧
    (impl_get_type_registration registration_data none =
      RegistrationInsert.ReflectFromPtr ::
        registration_data.map RegistrationInsert.TypeData) ∧
    (∀ k, (impl_get_type_registration registration_data (some denylist))[k + 2]? =
      (registration_data[k]?).map RegistrationInsert.TypeData) ∧
    (∀ k, (impl_get_type_registration registration_data none)[k + 1]? =
      (registration_data[k]?).map RegistrationInsert.TypeData) := by
  refine ⟨rfl, rfl, ?_, ?_⟩ <;> intro k <;>
    simp [impl_get_type_registration, List.getElem?_cons_succ, List.getElem?_map]

/-! ### C2 -/

/-- C2: the `container_default` keyword never reaches
`parse_container_default`, because the catch-all `Ident::peek_any` branch of
`parse_container_attribute` precedes the `kw::container_default` branch and
matches every identifier.  Concretely, parsing the single item
`container_default` under the ineligible provenance (a locally-defined
struct) *succeeds*, registering the marker ident
`Reflectcontainer_default`, instead of failing with the impl_reflect
restriction message. -/
theorem C2_container_default_never_reaches_checks :
    (ContainerAttributes.parse_terminated [.bare ⟨"container_default", 7⟩]
        ⟨.DeriveLocalType, .Reflect, .Struct⟩ =
      .ok { ContainerAttributes.default with
              idents := [⟨"Reflectcontainer_default", 7⟩] }) ∧
    (∀ item : AttrItem,
      (!(item.peekKw CONTAINER_DEFAULT_ATTR) || item.peekIdentAny) = true) := by
  refine ⟨rfl, ?_⟩
  intro item
  cases item <;> simp [AttrItem.peekKw, AttrItem.peekIdentAny]

theorem foldlM_add_unique_ident_error {n : String} :
    ∀ {l acc : List Ident}, n ∈ acc.map Ident.name → n ∈ l.map Ident.name →
    ∃ e, l.foldlM add_unique_ident acc = .error e := by
  intro l
  induction l with
  | nil =>
    intro acc hacc hl
    simp at hl
  | cons i rest ih =>
    intro acc hacc hl
    rw [List.foldlM_cons]
    by_cases hdup : acc.any (fun j => j.name == i.name)
    · refine ⟨⟨i.span, CONFLICTING_TYPE_DATA_MESSAGE⟩, ?_⟩
      have hstep : add_unique_ident acc i =
          .error ⟨i.span, CONFLICTING_TYPE_DATA_MESSAGE⟩ := by
        simp [add_unique_ident, hdup]
      rw [hstep, except_bind_error]
    · have hstep : add_unique_ident acc i = .ok (acc ++ [i]) := by
        simp only [add_unique_ident]
        rw [if_neg]
        simpa using hdup
      rw [hstep, except_bind_ok]
      have hne : n ≠ i.name := by
        intro heq
        apply hdup
        rw [List.any_eq_true]
        obtain ⟨j, hj, hjn⟩ := List.mem_map.mp hacc
        exact ⟨j, hj, by rw [beq_iff_eq, hjn, heq]⟩
      have hl' : n ∈ rest.map Ident.name := by
        obtain ⟨j, hj, hjn⟩ := List.mem_map.mp hl
        rcases List.mem_cons.mp hj with rfl | hjr
        · exact absurd hjn.symm hne
        · exact List.mem_map.mpr ⟨j, hjr, hjn⟩
      exact ih (by rw [List.map_append]; exact List.mem_append_left _ hacc) hl'

theorem merge_error_of_overlap {a b : ContainerAttributes}
    (h : (a.debug ≠ .NotImplemented ∧ b.debug ≠ .NotImplemented) ∨
         (a.hash ≠ .NotImplemented ∧ b.hash ≠ .NotImplemented) ∨
         (a.partial_eq ≠ .NotImplemented ∧ b.partial_eq ≠ .NotImplemented) ∨
         (∃ n, n ∈ a.idents.map Ident.name ∧ n ∈ b.idents.map Ident.name)) :
    ∃ e, a.merge b = .error e := by
  rcases h with ⟨ha, hb⟩ | ⟨ha, hb⟩ | ⟨ha, hb⟩ | ⟨n, hna, hnb⟩
  · obtain ⟨e, he⟩ := traitImpl_merge_conflict ha hb
    exact ⟨e, by simp [ContainerAttributes.merge, he]⟩
  · cases h1 : a.debug.merge b.debug with
    | error e => exact ⟨e, by simp [ContainerAttributes.merge, h1]⟩
    | ok v1 =>
      obtain ⟨e, he⟩ := traitImpl_merge_conflict ha hb
      exact ⟨e, by simp [ContainerAttributes.merge, h1, he]⟩
  · cases h1 : a.debug.merge b.debug with
    | error e => exact ⟨e, by simp [ContainerAttributes.merge, h1]⟩
    | ok v1 =>
      cases h2 : a.hash.merge b.hash with
      | error e => exact ⟨e, by simp [ContainerAttributes.merge, h1, h2]⟩
      | ok v2 =>
        obtain ⟨e, he⟩ := traitImpl_merge_conflict ha hb
        exact ⟨e, by simp [ContainerAttributes.merge, h1, h2, he]⟩
  · cases h1 : a.debug.merge b.debug with
    | error e => exact ⟨e, by simp [ContainerAttributes.merge, h1]⟩
    | ok v1 =>
      cases h2 : a.hash.merge b.hash with
      | error e => exact ⟨e, by simp [ContainerAttributes.merge, h1, h2]⟩
      | ok v2 =>
        cases h3 : a.partial_eq.merge b.partial_eq with
        | error e => exact ⟨e, by simp [ContainerAttributes.merge, h1, h2, h3]⟩
        | ok v3 =>
          cases h4 : a.from_reflect_attrs.merge b.from_reflect_attrs with
          | error e =>
            exact ⟨e, by simp [ContainerAttributes.merge, h1, h2, h3, h4]⟩
          | ok v4 =>
            cases h5 : a.type_path_attrs.merge b.type_path_attrs with
            | error e =>
              exact ⟨e, by simp [ContainerAttributes.merge, h1, h2, h3, h4, h5]⟩
            | ok v5 =>
              obtain ⟨e6, he6⟩ := foldlM_add_unique_ident_error hna hnb
              exact ⟨e6,
                by simp [ContainerAttributes.merge, h1, h2, h3, h4, h5, he6]⟩


/-! ### C1 -/

/-- C1 counterexample: the attribute list `Debug, Debug` — a second
assignment, inside the same attribute list, to a slot already `Implemented`,
via a bare keyword — parses successfully (the second bare keyword silently
overwrites the slot), contradicting the claim that any such second
assignment is a hard parse error. -/
theorem C1_second_bare_assignment_parses :
    ContainerAttributes.parse_terminated
      [.bare ⟨"Debug", 1⟩, .bare ⟨"Debug", 2⟩]
      ⟨.ImplRemoteType, .Reflect, .Struct⟩ =
    .ok { ContainerAttributes.default with debug := .Implemented 2 } := rfl

/-- C1 amended: for each special-trait slot independently, a second
assignment to an already-set slot is a hard conflict error when it uses the
parenthesized custom-function form (inside the same attribute list) or when
it arrives in a later merged occurrence with the slot set on both sides; but
a second *bare-keyword* assignment to any of the three slots inside the same
attribute list silently overwrites the slot and parses successfully. -/
theorem C1_amended (s a b : ContainerAttributes) (prov : ReflectProvenance)
    (sp : Span) (p : String) :
    (s.debug ≠ .NotImplemented →
      s.parse_container_attribute (.withParen ⟨"Debug", sp⟩ p) prov =
        .error ⟨sp, CONFLICTING_TYPE_DATA_MESSAGE⟩) ∧
    (s.partial_eq ≠ .NotImplemented →
      s.parse_container_attribute (.withParen ⟨"PartialEq", sp⟩ p) prov =
        .error ⟨sp, CONFLICTING_TYPE_DATA_MESSAGE⟩) ∧
    (s.hash ≠ .NotImplemented →
      s.parse_container_attribute (.withParen ⟨"Hash", sp⟩ p) prov =
        .error ⟨sp, CONFLICTING_TYPE_DATA_MESSAGE⟩) ∧
    (s.parse_container_attribute (.bare ⟨"Debug", sp⟩) prov =
      .ok { s with debug := .Implemented sp }) ∧
    (s.parse_container_attribute (.bare ⟨"PartialEq", sp⟩) prov =
      .ok { s with partial_eq := .Implemented sp }) ∧
    (s.parse_container_attribute (.bare ⟨"Hash", sp⟩) prov =
      .ok { s with hash := .Implemented sp }) ∧
    (a.debug ≠ .NotImplemented → b.debug ≠ .NotImplemented →
      ∃ e, a.merge b = .error e) ∧
    (a.partial_eq ≠ .NotImplemented → b.partial_eq ≠ .NotImplemented →
      ∃ e, a.merge b = .error e) ∧
    (a.hash ≠ .NotImplemented → b.hash ≠ .NotImplemented →
      ∃ e, a.merge b = .error e) := by
  refine ⟨?_, ?_, ?_, ?_, ?_, ?_, ?_, ?_, ?_⟩
  · intro hsd
    simp only [ContainerAttributes.parse_container_attribute, AttrItem.peekWhere,
      AttrItem.peekKw, FROM_REFLECT_ATTR, TYPE_PATH_ATTR]
    simp only [ContainerAttributes.parse_debug]
    cases h : s.debug with
    | NotImplemented => exact absurd h hsd
    | Implemented sp2 => simp [TraitImpl.merge]
    | Custom pth sp2 => simp [TraitImpl.merge]
  · intro hsp
    simp only [ContainerAttributes.parse_container_attribute, AttrItem.peekWhere,
      AttrItem.peekKw, FROM_REFLECT_ATTR, TYPE_PATH_ATTR]
    simp only [ContainerAttributes.parse_partial_eq]
    cases h : s.partial_eq with
    | NotImplemented => exact absurd h hsp
    | Implemented sp2 => simp [TraitImpl.merge]
    | Custom pth sp2 => simp [TraitImpl.merge]
  · intro hsh
    simp only [ContainerAttributes.parse_container_attribute, AttrItem.peekWhere,
      AttrItem.peekKw, FROM_REFLECT_ATTR, TYPE_PATH_ATTR]
    simp only [ContainerAttributes.parse_hash]
    cases h : s.hash with
    | NotImplemented => exact absurd h hsh
    | Implemented sp2 => simp [TraitImpl.merge]
    | Custom pth sp2 => simp [TraitImpl.merge]
  · simp [ContainerAttributes.parse_container_attribute, AttrItem.peekWhere,
      AttrItem.peekKw, FROM_REFLECT_ATTR, TYPE_PATH_ATTR,
      ContainerAttributes.parse_debug]
  · simp [ContainerAttributes.parse_container_attribute, AttrItem.peekWhere,
      AttrItem.peekKw, FROM_REFLECT_ATTR, TYPE_PATH_ATTR,
      ContainerAttributes.parse_partial_eq]
  · simp [ContainerAttributes.parse_container_attribute, AttrItem.peekWhere,
      AttrItem.peekKw, FROM_REFLECT_ATTR, TYPE_PATH_ATTR,
      ContainerAttributes.parse_hash]
  · intro had hbd
    exact merge_error_of_overlap (Or.inl ⟨had, hbd⟩)
  · intro hap hbp
    exact merge_error_of_overlap (Or.inr (Or.inr (Or.inl ⟨hap, hbp⟩)))
  · intro hah hbh
    exact merge_error_of_overlap (Or.inr (Or.inl ⟨hah, hbh⟩))

/-- Witness for C1's amended theorem at a fully-populated concrete
`ContainerAttributes` (so every slot-set hypothesis is dischargeable). -/
theorem C1_amended_witness :
    (({ ContainerAttributes.default with
          debug := TraitImpl.Implemented 3
          partial_eq := TraitImpl.Implemented 4
          hash := TraitImpl.Implemented 5 } : ContainerAttributes).debug ≠
        .NotImplemented →
      ({ ContainerAttributes.default with
          debug := TraitImpl.Implemented 3
          partial_eq := TraitImpl.Implemented 4
          hash := TraitImpl.Implemented 5 } :
        ContainerAttributes).parse_container_attribute
        (.withParen ⟨"Debug", 9⟩ "my_fn") ⟨.ImplRemoteType, .Reflect, .Struct⟩ =
      .error ⟨9, CONFLICTING_TYPE_DATA_MESSAGE⟩) ∧
    (({ ContainerAttributes.default with
          debug := TraitImpl.Implemented 3
          partial_eq := TraitImpl.Implemented 4
          hash := TraitImpl.Implemented 5 } : ContainerAttributes).partial_eq ≠
        .NotImplemented →
      ({ ContainerAttributes.default with
          debug := TraitImpl.Implemented 3
          partial_eq := TraitImpl.Implemented 4
          hash := TraitImpl.Implemented 5 } :
        ContainerAttributes).parse_container_attribute
        (.withParen ⟨"PartialEq", 9⟩ "my_fn") ⟨.ImplRemoteType, .Reflect, .Struct⟩ =
      .error ⟨9, CONFLICTING_TYPE_DATA_MESSAGE⟩) ∧
    (({ ContainerAttributes.default with
          debug := TraitImpl.Implemented 3
          partial_eq := TraitImpl.Implemented 4
          hash := TraitImpl.Implemented 5 } : ContainerAttributes).hash ≠
        .NotImplemented →
      ({ ContainerAttributes.default with
          debug := TraitImpl.Implemented 3
          partial_eq := TraitImpl.Implemented 4
          hash := TraitImpl.Implemented 5 } :
        ContainerAttributes).parse_container_attribute
        (.withParen ⟨"Hash", 9⟩ "my_fn") ⟨.ImplRemoteType, .Reflect, .Struct⟩ =
      .error ⟨9, CONFLICTING_TYPE_DATA_MESSAGE⟩) ∧
    (({ ContainerAttributes.default with
          debug := TraitImpl.Implemented 3
          partial_eq := TraitImpl.Implemented 4
          hash := TraitImpl.Implemented 5 } :
        ContainerAttributes).parse_container_attribute
        (.bare ⟨"Debug", 9⟩) ⟨.ImplRemoteType, .Reflect, .Struct⟩ =
      .ok { ContainerAttributes.default with
          debug := TraitImpl.Implemented 9
          partial_eq := TraitImpl.Implemented 4
          hash := TraitImpl.Implemented 5 }) ∧
    (({ ContainerAttributes.default with
          debug := TraitImpl.Implemented 3
          partial_eq := TraitImpl.Implemented 4
          hash := TraitImpl.Implemented 5 } :
        ContainerAttributes).parse_container_attribute
        (.bare ⟨"PartialEq", 9⟩) ⟨.ImplRemoteType, .Reflect, .Struct⟩ =
      .ok { ContainerAttributes.default with
          debug := TraitImpl.Implemented 3
          partial_eq := TraitImpl.Implemented 9
          hash := TraitImpl.Implemented 5 }) ∧
    (({ ContainerAttributes.default with
          debug := TraitImpl.Implemented 3
          partial_eq := TraitImpl.Implemented 4
          hash := TraitImpl.Implemented 5 } :
        ContainerAttributes).parse_container_attribute
        (.bare ⟨"Hash", 9⟩) ⟨.ImplRemoteType, .Reflect, .Struct⟩ =
      .ok { ContainerAttributes.default with
          debug := TraitImpl.Implemented 3
          partial_eq := TraitImpl.Implemented 4
          hash := TraitImpl.Implemented 9 }) ∧
    (({ ContainerAttributes.default with
          debug := TraitImpl.Implemented 3
          partial_eq := TraitImpl.Implemented 4
          hash := TraitImpl.Implemented 5 } : ContainerAttributes).debug ≠
        .NotImplemented →
      ({ ContainerAttributes.default with
          debug := TraitImpl.Implemented 6
          partial_eq := TraitImpl.Implemented 7
          hash := TraitImpl.Implemented 8 } : ContainerAttributes).debug ≠
        .NotImplemented →
      ∃ e, ({ ContainerAttributes.default with
          debug := TraitImpl.Implemented 3
          partial_eq := TraitImpl.Implemented 4
          hash := TraitImpl.Implemented 5 } : ContainerAttributes).merge
        { ContainerAttributes.default with
            debug := TraitImpl.Implemented 6
            partial_eq := TraitImpl.Implemented 7
            hash := TraitImpl.Implemented 8 } = .error e) ∧
    (({ ContainerAttributes.default with
          debug := TraitImpl.Implemented 3
          partial_eq := TraitImpl.Implemented 4
          hash := TraitImpl.Implemented 5 } : ContainerAttributes).partial_eq ≠
        .NotImplemented →
      ({ ContainerAttributes.default with
          debug := TraitImpl.Implemented 6
          partial_eq := TraitImpl.Implemented 7
          hash := TraitImpl.Implemented 8 } : ContainerAttributes).partial_eq ≠
        .NotImplemented →
      ∃ e, ({ ContainerAttributes.default with
          debug := TraitImpl.Implemented 3
          partial_eq := TraitImpl.Implemented 4
          hash := TraitImpl.Implemented 5 } : ContainerAttributes).merge
        { ContainerAttributes.default with
            debug := TraitImpl.Implemented 6
            partial_eq := TraitImpl.Implemented 7
            hash := TraitImpl.Implemented 8 } = .error e) ∧
    (({ ContainerAttributes.default with
          debug := TraitImpl.Implemented 3
          partial_eq := TraitImpl.Implemented 4
          hash := TraitImpl.Implemented 5 } : ContainerAttributes).hash ≠
        .NotImplemented →
      ({ ContainerAttributes.default with
          debug := TraitImpl.Implemented 6
          partial_eq := TraitImpl.Implemented 7
          hash := TraitImpl.Implemented 8 } : ContainerAttributes).hash ≠
        .NotImplemented →
      ∃ e, ({ ContainerAttributes.default with
          debug := TraitImpl.Implemented 3
          partial_eq := TraitImpl.Implemented 4
          hash := TraitImpl.Implemented 5 } : ContainerAttributes).merge
        { ContainerAttributes.default with
            debug := TraitImpl.Implemented 6
            partial_eq := TraitImpl.Implemented 7
            hash := TraitImpl.Implemented 8 } = .error e) := by
  exact C1_amended
    { ContainerAttributes.default with
        debug := TraitImpl.Implemented 3
        partial_eq := TraitImpl.Implemented 4
        hash := TraitImpl.Implemented 5 }
    { ContainerAttributes.default with
        debug := TraitImpl.Implemented 3
        partial_eq := TraitImpl.Implemented 4
        hash := TraitImpl.Implemented 5 }
    { ContainerAttributes.default with
        debug := TraitImpl.Implemented 6
        partial_eq := TraitImpl.Implemented 7
        hash := TraitImpl.Implemented 8 }
    ⟨.ImplRemoteType, .Reflect, .Struct⟩ 9 "my_fn"

/-! ### C6 -/

/-- C6 counterexample: two `FromReflectAttrs` that both set the
`from_reflect` toggle to the *same* boolean value, but both carry a
`container_default`: their merge fails (with the `container_default` error),
contradicting the claim that merging succeeds whenever the two boolean
values are equal. -/
theorem C6_equal_toggles_merge_fails :
    (FromReflectAttrs.merge
        ⟨some ⟨true, 1⟩, some ⟨"path_a", 2⟩⟩
        ⟨some ⟨true, 3⟩, some ⟨"path_b", 4⟩⟩ =
      .error ⟨2, "`container_default` already set"⟩) ∧
    ((⟨some ⟨true, 1⟩, some ⟨"path_a", 2⟩⟩ : FromReflectAttrs).auto_derive.map
        LitBool.value =
      (⟨some ⟨true, 3⟩, some ⟨"path_b", 4⟩⟩ : FromReflectAttrs).auto_derive.map
        LitBool.value) := by
  exact ⟨rfl, rfl⟩

/-- C6 amended: for two sets that both set the toggle, merging the toggle is
idempotent on equal boolean values — the merge succeeds whenever the rest of
the record does not independently conflict (for `from_reflect`, when the two
sides do not both carry a `container_default`; `type_path` has no other
field) — and unequal boolean values fail with an error naming the toggle and
the already-set value. -/
theorem C6_amended (a b : FromReflectAttrs) (ta tb : TypePathAttrs)
    (la lb lc ld : LitBool)
    (ha : a.auto_derive = some la) (hb : b.auto_derive = some lb)
    (hta : ta.auto_derive = some lc) (htb : tb.auto_derive = some ld) :
    (la.value = lb.value → ¬(a.container_default.isSome ∧ b.container_default.isSome) →
      ∃ r, a.merge b = .ok r ∧ r.auto_derive = some la) ∧
    (la.value ≠ lb.value →
      a.merge b = .error ⟨lb.span,
        "`" ++ FROM_REFLECT_ATTR ++ "` already set to " ++ toString la.value⟩) ∧
    (lc.value = ld.value → ta.merge tb = .ok ta) ∧
    (lc.value ≠ ld.value →
      ta.merge tb = .error ⟨ld.span,
        "`" ++ TYPE_PATH_ATTR ++ "` already set to " ++ toString lc.value⟩) := by
  refine ⟨?_, ?_, ?_, ?_⟩
  · intro heq hcd
    have hbne : (la.value != lb.value) = false := by simp [heq]
    simp only [FromReflectAttrs.merge, ha, hb, hbne, Bool.false_eq_true, if_false,
      except_bind_ok]
    cases hbc : b.container_default with
    | none => exact ⟨a, rfl, ha⟩
    | some cd =>
      cases hac : a.container_default with
      | none =>
        refine ⟨{ a with container_default := some cd }, ?_, ha⟩
        simp [FromReflectAttrs.insert_container_default, hac]
      | some cd2 => exact absurd ⟨by simp [hac], by simp [hbc]⟩ hcd
  · intro hne
    have hbne : (la.value != lb.value) = true := by simp [bne_iff_ne]; exact hne
    simp [FromReflectAttrs.merge, ha, hb, hbne]
  · intro heq
    simp [TypePathAttrs.merge, hta, htb, heq]
  · intro hne
    have hbne : (lc.value != ld.value) = true := by simp [bne_iff_ne]; exact hne
    simp [TypePathAttrs.merge, hta, htb, hbne]

/-- Witness for C6's amended theorem at concrete attribute records with
unequal toggle values. -/
theorem C6_amended_witness :
    ((true : Bool) = false →
      ¬((⟨some ⟨true, 1⟩, none⟩ : FromReflectAttrs).container_default.isSome ∧
        (⟨some ⟨false, 2⟩, none⟩ : FromReflectAttrs).container_default.isSome) →
      ∃ r, FromReflectAttrs.merge ⟨some ⟨true, 1⟩, none⟩ ⟨some ⟨false, 2⟩, none⟩ =
        .ok r ∧ r.auto_derive = some ⟨true, 1⟩) ∧
    ((true : Bool) ≠ false →
      FromReflectAttrs.merge ⟨some ⟨true, 1⟩, none⟩ ⟨some ⟨false, 2⟩, none⟩ =
        .error ⟨2, "`" ++ FROM_REFLECT_ATTR ++ "` already set to " ++ toString true⟩) ∧
    ((false : Bool) = false → TypePathAttrs.merge ⟨some ⟨false, 3⟩⟩ ⟨some ⟨false, 4⟩⟩ =
      .ok ⟨some ⟨false, 3⟩⟩) ∧
    ((false : Bool) ≠ false →
      TypePathAttrs.merge ⟨some ⟨false, 3⟩⟩ ⟨some ⟨false, 4⟩⟩ =
        .error ⟨4, "`" ++ TYPE_PATH_ATTR ++ "` already set to " ++ toString false⟩) :=
  C6_amended ⟨some ⟨true, 1⟩, none⟩ ⟨some ⟨false, 2⟩, none⟩
    ⟨some ⟨false, 3⟩⟩ ⟨some ⟨false, 4⟩⟩ ⟨true, 1⟩ ⟨false, 2⟩ ⟨false, 3⟩ ⟨false, 4⟩
    rfl rfl rfl rfl

/-! ### C3 -/

theorem overlay_field_step_length {A V D : Type} (field : A → Option D)
    (this : List V) (f : ActiveField A V D) :
    (overlay_field_step field this f).length = this.length := by
  unfold overlay_field_step
  cases active_field_closure f (field f.accessor) <;> simp

theorem overlay_field_step_get_ne {A V D : Type} (field : A → Option D)
    (this : List V) (f : ActiveField A V D) (i : Nat) (h : f.index ≠ i) :
    (overlay_field_step field this f)[i]? = this[i]? := by
  unfold overlay_field_step
  cases active_field_closure f (field f.accessor) with
  | none => rfl
  | some v => exact List.getElem?_set_ne h

theorem foldl_overlay_length {A V D : Type} (field : A → Option D)
    (l : List (ActiveField A V D)) (this : List V) :
    (l.foldl (overlay_field_step field) this).length = this.length := by
  induction l generalizing this with
  | nil => rfl
  | cons f rest ih =>
    rw [List.foldl_cons, ih, overlay_field_step_length]

theorem foldl_overlay_get_not_mem {A V D : Type} (field : A → Option D)
    (l : List (ActiveField A V D)) (this : List V) (i : Nat)
    (h : i ∉ l.map ActiveField.index) :
    (l.foldl (overlay_field_step field) this)[i]? = this[i]? := by
  induction l generalizing this with
  | nil => rfl
  | cons f rest ih =>
    rw [List.map_cons, List.mem_cons] at h
    push_neg at h
    rw [List.foldl_cons, ih _ h.2, overlay_field_step_get_ne]
    exact fun hfi => h.1 hfi.symm

theorem foldl_overlay_get_mem {A V D : Type} (field : A → Option D)
    (l : List (ActiveField A V D)) (this : List V) (f : ActiveField A V D)
    (hmem : f ∈ l) (hnodup : (l.map ActiveField.index).Nodup)
    (hlen : f.index < this.length) :
    (l.foldl (overlay_field_step field) this)[f.index]? =
      match active_field_closure f (field f.accessor) with
      | some value => some value
      | none => this[f.index]? := by
  induction l generalizing this with
  | nil => exact absurd hmem (List.not_mem_nil f)
  | cons g rest ih =>
    rw [List.map_cons, List.nodup_cons] at hnodup
    rcases List.mem_cons.mp hmem with rfl | hrest
    · rw [List.foldl_cons,
        foldl_overlay_get_not_mem field rest (overlay_field_step field this f)
          f.index hnodup.1]
      unfold overlay_field_step
      cases active_field_closure f (field f.accessor) with
      | none => rfl
      | some v =>
        simp only
        rw [List.getElem?_set_self]
        exact hlen
    · have hne : g.index ≠ f.index := by
        intro heq
        exact hnodup.1 (heq ▸ List.mem_map_of_mem ActiveField.index hrest)
      rw [List.foldl_cons,
        ih (overlay_field_step field this g) hrest hnodup.2
          (by rw [overlay_field_step_length]; exact hlen),
        overlay_field_step_get_ne field this g f.index hne]

/-- C3 counterexample: the container-default strategy does *not* keep the
container default for every absent field.  One active field at member index
0 whose default behavior is a user default function producing `9`; the
container default has `5` at index 0; the input has struct kind but the
field is absent: the generated code overlays `9` (the field's own default),
not the container default `5` the claim requires it to keep. -/
theorem C3_absent_field_overlays_field_default :
    (from_reflect_with_container_default [5]
        [⟨0, 0, .Func 9, fun d : Nat => some d⟩]
        (.StructKind (fun _ : Nat => (none : Option Nat))) = some [9]) ∧
    (from_reflect_with_container_default [5]
        [⟨0, 0, .Func 9, fun d : Nat => some d⟩]
        (.StructKind (fun _ : Nat => (none : Option Nat))) ≠ some [5]) := by
  exact ⟨rfl, by decide⟩

/-- C3 amended: under the container-default strategy the generated code
first constructs the intrinsic default value and always produces `Some` once
the input has the struct kind (and `None` otherwise).  Per active field, the
result overlays the field's converted value when extraction and conversion
both succeed; a field that is present but fails conversion keeps the
container default, as does an absent field with *required* behavior — but an
absent field whose default behavior is a user default function or the
intrinsic per-field default overlays that per-field fallback value instead
of keeping the container default.  Inactive member indices always keep the
container default. -/
theorem C3_amended {A V D : Type} (default_this : List V)
    (active_fields : List (ActiveField A V D)) (lookup : A → Option D)
    (hnodup : (active_fields.map ActiveField.index).Nodup)
    (hlt : ∀ f ∈ active_fields, f.index < default_this.length) :
    (from_reflect_with_container_default default_this active_fields
        (.NonStructKind) = none) ∧
    (∃ r, from_reflect_with_container_default default_this active_fields
        (.StructKind lookup) = some r ∧
      r.length = default_this.length ∧
      (∀ f ∈ active_fields,
        r[f.index]? = match active_field_closure f (lookup f.accessor) with
          | some value => some value
          | none => default_this[f.index]?) ∧
      (∀ i, i ∉ active_fields.map ActiveField.index →
        r[i]? = default_this[i]?)) := by
  refine ⟨rfl, active_fields.foldl (overlay_field_step lookup) default_this,
    rfl, foldl_overlay_length lookup active_fields default_this, ?_, ?_⟩
  · intro f hf
    exact foldl_overlay_get_mem lookup active_fields default_this f hf hnodup
      (hlt f hf)
  · intro i hi
    exact foldl_overlay_get_not_mem lookup active_fields default_this i hi

/-- Witness for C3's amended theorem: two active fields over a three-field
struct — index 0 absent with a default-function fallback (overlaid with the
fallback `9`), index 2 present but failing conversion (container default `7`
kept), index 1 inactive (container default `6` kept). -/
theorem C3_amended_witness :
    (from_reflect_with_container_default [5, 6, 7]
        [⟨0, 0, .Func 9, fun d : Nat => some d⟩,
         ⟨2, 2, .Required, fun _ : Nat => (none : Option Nat)⟩]
        (.NonStructKind) = none) ∧
    (∃ r, from_reflect_with_container_default [5, 6, 7]
        [⟨0, 0, .Func 9, fun d : Nat => some d⟩,
         ⟨2, 2, .Required, fun _ : Nat => (none : Option Nat)⟩]
        (.StructKind (fun a : Nat => if a = 2 then some 1 else none)) = some r ∧
      r.length = 3 ∧ r[0]? = some 9 ∧ r[2]? = some 7 ∧ r[1]? = some 6) := by
  obtain ⟨h1, r, hr, hlen, hmem, hnot⟩ := C3_amended [5, 6, 7]
    [⟨0, 0, .Func 9, fun d : Nat => some d⟩,
     ⟨2, 2, .Required, fun _ : Nat => (none : Option Nat)⟩]
    (fun a : Nat => if a = 2 then some 1 else none)
    (by decide)
    (by intro f hf
        rcases List.mem_cons.mp hf with rfl | hf
        · decide
        · rcases List.mem_cons.mp hf with rfl | hf
          · decide
          · exact absurd hf (List.not_mem_nil f))
  refine ⟨h1, r, hr, hlen, ?_, ?_, ?_⟩
  · exact hmem _ (List.mem_cons_self _ _)
  · exact hmem _ (List.mem_cons_of_mem _ (List.mem_cons_self _ _))
  · exact hnot 1 (by decide)

/-! ### C4 -/

/-- C4: the generated enum `from_reflect`, given an enum-kind input whose
variant name matches no declared variant, panics with the message
``variant with name `<name>` does not exist on enum `<type_name>` `` — which
contains both the unrecognized name and the enum's static type name — and
returns `None` (not a panic) for any non-enum-kind input. -/
theorem C4_enum_unknown_variant_panics {D α : Type}
    (variants : List (String × (D → α))) (type_name name : String) (data : D)
    (hmiss : ∀ v ∈ variants, v.1 ≠ name) :
    (enum_from_reflect variants type_name (.EnumKind name data) =
      .Panicked ("variant with name `" ++ name ++ "` does not exist on enum `" ++
        type_name ++ "`")) ∧
    (∃ l r : String,
      ("variant with name `" ++ name ++ "` does not exist on enum `" ++
        type_name ++ "`") = l ++ name ++ r) ∧
    (∃ l r : String,
      ("variant with name `" ++ name ++ "` does not exist on enum `" ++
        type_name ++ "`") = l ++ type_name ++ r) ∧
    (enum_from_reflect variants type_name .NonEnumKind = .None) := by
  refine ⟨?_, ?_, ?_, rfl⟩
  · have hfind : variants.find? (fun v => v.1 == name) = none := by
      rw [List.find?_eq_none]
      intro v hv
      simp only [beq_iff_eq]
      exact hmiss v hv
    simp [enum_from_reflect, hfind]
  · exact ⟨"variant with name `",
      "` does not exist on enum `" ++ type_name ++ "`",
      by simp [String.append_assoc]⟩
  · exact ⟨"variant with name `" ++ name ++ "` does not exist on enum `", "`",
      by simp [String.append_assoc]⟩

/-- Witness for C4 at a one-variant enum and the unknown variant name `B`. -/
theorem C4_witness :
    (enum_from_reflect [("A", fun d : Nat => d + 1)] "my_crate::MyEnum"
        (.EnumKind "B" 0) =
      .Panicked ("variant with name `" ++ "B" ++ "` does not exist on enum `" ++
        "my_crate::MyEnum" ++ "`")) ∧
    (∃ l r : String,
      ("variant with name `" ++ "B" ++ "` does not exist on enum `" ++
        "my_crate::MyEnum" ++ "`") = l ++ "B" ++ r) ∧
    (∃ l r : String,
      ("variant with name `" ++ "B" ++ "` does not exist on enum `" ++
        "my_crate::MyEnum" ++ "`") = l ++ "my_crate::MyEnum" ++ r) ∧
    (enum_from_reflect [("A", fun d : Nat => d + 1)] "my_crate::MyEnum"
        .NonEnumKind = .None) := by
  refine C4_enum_unknown_variant_panics [("A", fun d : Nat => d + 1)]
    "my_crate::MyEnum" "B" 0 ?_
  intro v hv
  rcases List.mem_cons.mp hv with rfl | hv
  · decide
  · exact absurd hv (List.not_mem_nil v)

/-! ### C5 -/

/-- C5: if the same special-trait slot is non-absent in both annotation
sets, or the same marker identifier is registered in both, then the merge
fails in both orders — so failure is symmetric in merge order; and when the
overlap is a special-trait slot, the failure carries the conflicting
type-data registration message. -/
theorem C5_merge_conflict_symmetric (a b : ContainerAttributes)
    (h : (a.debug ≠ .NotImplemented ∧ b.debug ≠ .NotImplemented) ∨
         (a.hash ≠ .NotImplemented ∧ b.hash ≠ .NotImplemented) ∨
         (a.partial_eq ≠ .NotImplemented ∧ b.partial_eq ≠ .NotImplemented) ∨
         (∃ n, n ∈ a.idents.map Ident.name ∧ n ∈ b.idents.map Ident.name)) :
    (∃ e, a.merge b = .error e) ∧ (∃ e, b.merge a = .error e) ∧
    ((∃ e, a.merge b = .error e) ↔ (∃ e, b.merge a = .error e)) ∧
    ((a.debug ≠ .NotImplemented ∧ b.debug ≠ .NotImplemented) ∨
     (a.hash ≠ .NotImplemented ∧ b.hash ≠ .NotImplemented) ∨
     (a.partial_eq ≠ .NotImplemented ∧ b.partial_eq ≠ .NotImplemented) →
      ∃ sp, a.merge b = .error ⟨sp, CONFLICTING_TYPE_DATA_MESSAGE⟩) := by
  have h' : (b.debug ≠ .NotImplemented ∧ a.debug ≠ .NotImplemented) ∨
      (b.hash ≠ .NotImplemented ∧ a.hash ≠ .NotImplemented) ∨
      (b.partial_eq ≠ .NotImplemented ∧ a.partial_eq ≠ .NotImplemented) ∨
      (∃ n, n ∈ b.idents.map Ident.name ∧ n ∈ a.idents.map Ident.name) := by
    rcases h with ⟨x, y⟩ | ⟨x, y⟩ | ⟨x, y⟩ | ⟨n, x, y⟩
    · exact Or.inl ⟨y, x⟩
    · exact Or.inr (Or.inl ⟨y, x⟩)
    · exact Or.inr (Or.inr (Or.inl ⟨y, x⟩))
    · exact Or.inr (Or.inr (Or.inr ⟨n, y, x⟩))
  have hab := merge_error_of_overlap h
  have hba := merge_error_of_overlap h'
  refine ⟨hab, hba, ⟨fun _ => hba, fun _ => hab⟩, ?_⟩
  intro hsp
  by_cases hd : a.debug ≠ .NotImplemented ∧ b.debug ≠ .NotImplemented
  · obtain ⟨sp, hm⟩ := traitImpl_merge_conflict_msg hd.1 hd.2
    exact ⟨sp, by simp [ContainerAttributes.merge, hm]⟩
  · rw [not_and_or, not_not, not_not] at hd
    obtain ⟨v1, h1⟩ := traitImpl_merge_ok_of_not_both hd
    by_cases hh : a.hash ≠ .NotImplemented ∧ b.hash ≠ .NotImplemented
    · obtain ⟨sp, hm⟩ := traitImpl_merge_conflict_msg hh.1 hh.2
      exact ⟨sp, by simp [ContainerAttributes.merge, h1, hm]⟩
    · rw [not_and_or, not_not, not_not] at hh
      obtain ⟨v2, h2⟩ := traitImpl_merge_ok_of_not_both hh
      have hp : a.partial_eq ≠ .NotImplemented ∧ b.partial_eq ≠ .NotImplemented := by
        rcases hsp with ⟨x, y⟩ | ⟨x, y⟩ | hp
        · rcases hd with hd | hd
          · exact absurd hd x
          · exact absurd hd y
        · rcases hh with hh | hh
          · exact absurd hh x
          · exact absurd hh y
        · exact hp
      obtain ⟨sp, hm⟩ := traitImpl_merge_conflict_msg hp.1 hp.2
      exact ⟨sp, by simp [ContainerAttributes.merge, h1, h2, hm]⟩

/-- Witness for C5 at two annotation sets sharing both the `Debug` slot and
the marker ident `ReflectDefault`. -/
theorem C5_witness :
    (∃ e, ({ ContainerAttributes.default with
        debug := TraitImpl.Implemented 1
        idents := [⟨"ReflectDefault", 1⟩] } : ContainerAttributes).merge
      { ContainerAttributes.default with
          debug := TraitImpl.Implemented 2
          idents := [⟨"ReflectSerialize", 2⟩, ⟨"ReflectDefault", 3⟩] } =
      .error e) ∧
    (∃ e, ({ ContainerAttributes.default with
        debug := TraitImpl.Implemented 2
        idents := [⟨"ReflectSerialize", 2⟩, ⟨"ReflectDefault", 3⟩] } :
          ContainerAttributes).merge
      { ContainerAttributes.default with
          debug := TraitImpl.Implemented 1
          idents := [⟨"ReflectDefault", 1⟩] } = .error e) ∧
    ((∃ e, ({ ContainerAttributes.default with
        debug := TraitImpl.Implemented 1
        idents := [⟨"ReflectDefault", 1⟩] } : ContainerAttributes).merge
      { ContainerAttributes.default with
          debug := TraitImpl.Implemented 2
          idents := [⟨"ReflectSerialize", 2⟩, ⟨"ReflectDefault", 3⟩] } =
      .error e) ↔
     (∃ e, ({ ContainerAttributes.default with
        debug := TraitImpl.Implemented 2
        idents := [⟨"ReflectSerialize", 2⟩, ⟨"ReflectDefault", 3⟩] } :
          ContainerAttributes).merge
      { ContainerAttributes.default with
          debug := TraitImpl.Implemented 1
          idents := [⟨"ReflectDefault", 1⟩] } = .error e)) ∧
    ((({ ContainerAttributes.default with
        debug := TraitImpl.Implemented 1
        idents := [⟨"ReflectDefault", 1⟩] } : ContainerAttributes).debug ≠
          .NotImplemented ∧
      ({ ContainerAttributes.default with
        debug := TraitImpl.Implemented 2
        idents := [⟨"ReflectSerialize", 2⟩, ⟨"ReflectDefault", 3⟩] } :
          ContainerAttributes).debug ≠ .NotImplemented) ∨
     (({ ContainerAttributes.default with
        debug := TraitImpl.Implemented 1
        idents := [⟨"ReflectDefault", 1⟩] } : ContainerAttributes).hash ≠
          .NotImplemented ∧
      ({ ContainerAttributes.default with
        debug := TraitImpl.Implemented 2
        idents := [⟨"ReflectSerialize", 2⟩, ⟨"ReflectDefault", 3⟩] } :
          ContainerAttributes).hash ≠ .NotImplemented) ∨
     (({ ContainerAttributes.default with
        debug := TraitImpl.Implemented 1
        idents := [⟨"ReflectDefault", 1⟩] } : ContainerAttributes).partial_eq ≠
          .NotImplemented ∧
      ({ ContainerAttributes.default with
        debug := TraitImpl.Implemented 2
        idents := [⟨"ReflectSerialize", 2⟩, ⟨"ReflectDefault", 3⟩] } :
          ContainerAttributes).partial_eq ≠ .NotImplemented) →
      ∃ sp, ({ ContainerAttributes.default with
        debug := TraitImpl.Implemented 1
        idents := [⟨"ReflectDefault", 1⟩] } : ContainerAttributes).merge
      { ContainerAttributes.default with
          debug := TraitImpl.Implemented 2
          idents := [⟨"ReflectSerialize", 2⟩, ⟨"ReflectDefault", 3⟩] } =
        .error ⟨sp, CONFLICTING_TYPE_DATA_MESSAGE⟩) := by
  refine C5_merge_conflict_symmetric _ _ ?_
  exact Or.inl ⟨by decide, by decide⟩

/-! ### C7 -/

theorem from_input_step_ok_mode {st st' : FromInputScan} {a : InputAttr}
    (h : from_input_step st a = .ok st') :
    (a.isReflectList → st.reflect_mode ≠ some ReflectMode.Value ∧
      st'.reflect_mode = some ReflectMode.Normal) ∧
    (a.isReflectValue → st.reflect_mode ≠ some ReflectMode.Normal ∧
      st'.reflect_mode = some ReflectMode.Value) ∧
    (¬a.isModeSelecting → st'.reflect_mode = st.reflect_mode) := by
  cases a with
  | reflectList parsed span =>
    refine ⟨fun _ => ?_, fun hv => hv.elim, fun hm => absurd trivial hm⟩
    simp only [from_input_step] at h
    split at h
    · exact absurd h (by simp)
    next hcond =>
      rw [not_not] at hcond
      constructor
      · intro hval
        rcases hcond with hc | hc <;> rw [hval] at hc <;> simp at hc
      · cases parsed with
        | error e => exact absurd h (by simp)
        | ok t =>
          rw [except_bind_ok] at h
          cases hm : st.traits.merge t with
          | error e => rw [hm, except_bind_error] at h; cases h
          | ok tr =>
            rw [hm, except_bind_ok] at h
            cases h
            rfl
  | reflectValueList parsed span =>
    refine ⟨fun hl => hl.elim, fun _ => ?_, fun hm => absurd trivial hm⟩
    simp only [from_input_step] at h
    split at h
    · exact absurd h (by simp)
    next hcond =>
      rw [not_not] at hcond
      constructor
      · intro hval
        rcases hcond with hc | hc <;> rw [hval] at hc <;> simp at hc
      · cases parsed with
        | error e => exact absurd h (by simp)
        | ok t =>
          rw [except_bind_ok] at h
          cases hm : st.traits.merge t with
          | error e => rw [hm, except_bind_error] at h; cases h
          | ok tr =>
            rw [hm, except_bind_ok] at h
            cases h
            rfl
  | reflectValuePath span =>
    refine ⟨fun hl => hl.elim, fun _ => ?_, fun hm => absurd trivial hm⟩
    simp only [from_input_step] at h
    split at h
    · exact absurd h (by simp)
    next hcond =>
      rw [not_not] at hcond
      constructor
      · intro hval
        rcases hcond with hc | hc <;> rw [hval] at hc <;> simp at hc
      · cases h
        rfl
  | typePathNameValue aliasResult span =>
    refine ⟨fun hl => hl.elim, fun hv => hv.elim, fun _ => ?_⟩
    simp only [from_input_step] at h
    split at h
    · exact absurd h (by simp)
    · cases aliasResult with
      | error e => exact absurd h (by simp)
      | ok al =>
        rw [except_bind_ok] at h
        cases h
        rfl
  | otherAttr =>
    refine ⟨fun hl => hl.elim, fun hv => hv.elim, fun _ => ?_⟩
    simp only [from_input_step] at h
    cases h
    rfl

theorem scan_error_of_value_after_normal {attrs : List InputAttr} :
    ∀ {st : FromInputScan}, st.reflect_mode = some ReflectMode.Normal →
    (∃ y ∈ attrs, y.isReflectValue) →
    ∃ e, attrs.foldlM from_input_step st = .error e := by
  induction attrs with
  | nil =>
    rintro st h ⟨y, hy, _⟩
    simp at hy
  | cons a rest ih =>
    rintro st hmode ⟨y, hy, hyv⟩
    rw [List.foldlM_cons]
    cases hs : from_input_step st a with
    | error e => exact ⟨e, rfl⟩
    | ok st1 =>
      obtain ⟨hL, hV, hN⟩ := from_input_step_ok_mode hs
      have hav : ¬ a.isReflectValue := fun hva => (hV hva).1 hmode
      rcases List.mem_cons.mp hy with rfl | hyr
      · exact absurd hyv hav
      have hmode1 : st1.reflect_mode = some ReflectMode.Normal := by
        cases a with
        | reflectList parsed span => exact (hL trivial).2
        | reflectValueList parsed span => exact absurd trivial hav
        | reflectValuePath span => exact absurd trivial hav
        | typePathNameValue aliasResult span => rw [hN (fun hf => hf), hmode]
        | otherAttr => rw [hN (fun hf => hf), hmode]
      obtain ⟨e, he⟩ := ih hmode1 ⟨y, hyr, hyv⟩
      exact ⟨e, by simp only [except_bind_ok]; exact he⟩

theorem scan_error_of_reflect_after_value {attrs : List InputAttr} :
    ∀ {st : FromInputScan}, st.reflect_mode = some ReflectMode.Value →
    (∃ x ∈ attrs, x.isReflectList) →
    ∃ e, attrs.foldlM from_input_step st = .error e := by
  induction attrs with
  | nil =>
    rintro st h ⟨x, hx, _⟩
    simp at hx
  | cons a rest ih =>
    rintro st hmode ⟨x, hx, hxl⟩
    rw [List.foldlM_cons]
    cases hs : from_input_step st a with
    | error e => exact ⟨e, rfl⟩
    | ok st1 =>
      obtain ⟨hL, hV, hN⟩ := from_input_step_ok_mode hs
      have hal : ¬ a.isReflectList := fun hla => (hL hla).1 hmode
      rcases List.mem_cons.mp hx with rfl | hxr
      · exact absurd hxl hal
      have hmode1 : st1.reflect_mode = some ReflectMode.Value := by
        cases a with
        | reflectList parsed span => exact absurd trivial hal
        | reflectValueList parsed span => exact (hV trivial).2
        | reflectValuePath span => exact (hV trivial).2
        | typePathNameValue aliasResult span => rw [hN (fun hf => hf), hmode]
        | otherAttr => rw [hN (fun hf => hf), hmode]
      obtain ⟨e, he⟩ := ih hmode1 ⟨x, hxr, hxl⟩
      exact ⟨e, by simp only [except_bind_ok]; exact he⟩

theorem scan_error_of_both {attrs : List InputAttr}
    (hr : ∃ x ∈ attrs, x.isReflectList) (hv : ∃ y ∈ attrs, y.isReflectValue) :
    ∀ st, ∃ e, attrs.foldlM from_input_step st = .error e := by
  induction attrs with
  | nil =>
    obtain ⟨x, hx, _⟩ := hr
    exact absurd hx (by simp)
  | cons a rest ih =>
    intro st
    obtain ⟨x, hx, hxl⟩ := hr
    obtain ⟨y, hy, hyv⟩ := hv
    rw [List.foldlM_cons]
    cases hs : from_input_step st a with
    | error e => exact ⟨e, rfl⟩
    | ok st1 =>
      obtain ⟨hL, hV, hN⟩ := from_input_step_ok_mode hs
      have hnotboth : ¬(a.isReflectList ∧ a.isReflectValue) := by
        rintro ⟨h1, h2⟩
        cases a <;> first | exact h1.elim | exact h2.elim
      rcases List.mem_cons.mp hx with rfl | hxr
      · have hyr : y ∈ rest := by
          rcases List.mem_cons.mp hy with rfl | hyr
          · exact absurd ⟨hxl, hyv⟩ hnotboth
          · exact hyr
        obtain ⟨e, he⟩ :=
          scan_error_of_value_after_normal (hL hxl).2 ⟨y, hyr, hyv⟩
        exact ⟨e, by simp only [except_bind_ok]; exact he⟩
      · rcases List.mem_cons.mp hy with rfl | hyr
        · obtain ⟨e, he⟩ :=
            scan_error_of_reflect_after_value (hV hyv).2 ⟨x, hxr, hxl⟩
          exact ⟨e, by simp only [except_bind_ok]; exact he⟩
        · obtain ⟨e, he⟩ := ih ⟨x, hxr, hxl⟩ ⟨y, hyr, hyv⟩ st1
          exact ⟨e, by simp only [except_bind_ok]; exact he⟩

theorem scan_mode_of_no_mode_attr {attrs : List InputAttr}
    (hnone : ∀ x ∈ attrs, ¬ x.isModeSelecting) :
    ∀ {st st' : FromInputScan}, attrs.foldlM from_input_step st = .ok st' →
    st'.reflect_mode = st.reflect_mode := by
  induction attrs with
  | nil =>
    intro st st' h
    rw [List.foldlM_nil] at h
    cases h
    rfl
  | cons a rest ih =>
    intro st st' h
    rw [List.foldlM_cons] at h
    cases hs : from_input_step st a with
    | error e => rw [hs, except_bind_error] at h; cases h
    | ok st1 =>
      rw [hs] at h
      simp only [except_bind_ok] at h
      obtain ⟨_, _, hN⟩ := from_input_step_ok_mode hs
      rw [ih (fun x hx => hnone x (List.mem_cons_of_mem a hx)) h,
        hN (hnone a (List.mem_cons_self a rest))]

/-- C7: a declaration carrying both a `#[reflect(...)]` occurrence and a
`#[reflect_value(...)]`/`#[reflect_value]` occurrence always fails the
derive-input analysis, in either order; the scan step that meets the second
mode-selecting attribute fails with the message stating the two attributes
cannot be used together; and when no mode-selecting attribute is present at
all, a successful analysis always resolves to normal reflect mode. -/
theorem C7_mode_conflict_and_default_mode
    (attrs attrsNoMode : List InputAttr)
    (hr : ∃ x ∈ attrs, x.isReflectList)
    (hv : ∃ y ∈ attrs, y.isReflectValue)
    (hnone : ∀ x ∈ attrsNoMode, ¬ x.isModeSelecting) :
    (∃ e, from_input attrs = .error e) ∧
    (∀ (st : FromInputScan) (span : Span) (parsed : SynResult ContainerAttributes),
      (st.reflect_mode = some ReflectMode.Normal →
        from_input_step st (.reflectValueList parsed span) =
          .error ⟨span, CANNOT_USE_BOTH_MESSAGE⟩ ∧
        from_input_step st (.reflectValuePath span) =
          .error ⟨span, CANNOT_USE_BOTH_MESSAGE⟩) ∧
      (st.reflect_mode = some ReflectMode.Value →
        from_input_step st (.reflectList parsed span) =
          .error ⟨span, CANNOT_USE_BOTH_MESSAGE⟩)) ∧
    (∀ r, from_input attrsNoMode = .ok r → r.1 = ReflectMode.Normal) := by
  refine ⟨?_, ?_, ?_⟩
  · obtain ⟨e, he⟩ := scan_error_of_both hr hv
      ⟨none, ContainerAttributes.default, none⟩
    exact ⟨e, by unfold from_input; rw [he, except_bind_error]⟩
  · intro st span parsed
    constructor
    · intro hm
      constructor <;> simp [from_input_step, hm]
    · intro hm
      simp [from_input_step, hm]
  · intro r h
    unfold from_input at h
    cases hF : List.foldlM from_input_step
        ⟨none, ContainerAttributes.default, none⟩ attrsNoMode with
    | error e => rw [hF, except_bind_error] at h; cases h
    | ok st =>
      rw [hF] at h
      simp only [except_bind_ok] at h
      cases h
      have := scan_mode_of_no_mode_attr hnone hF
      rw [this]
      rfl

/-- Witness for C7: a `#[reflect(...)]` followed by a bare `#[reflect_value]`
fails; the step-level conflict carries the cannot-use-both message; and a
declaration with only non-mode attributes resolves to normal mode. -/
theorem C7_witness :
    (∃ e, from_input
      [.reflectList (.ok ContainerAttributes.default) 1, .reflectValuePath 2] =
      .error e) ∧
    (∀ (st : FromInputScan) (span : Span) (parsed : SynResult ContainerAttributes),
      (st.reflect_mode = some ReflectMode.Normal →
        from_input_step st (.reflectValueList parsed span) =
          .error ⟨span, CANNOT_USE_BOTH_MESSAGE⟩ ∧
        from_input_step st (.reflectValuePath span) =
          .error ⟨span, CANNOT_USE_BOTH_MESSAGE⟩) ∧
      (st.reflect_mode = some ReflectMode.Value →
        from_input_step st (.reflectList parsed span) =
          .error ⟨span, CANNOT_USE_BOTH_MESSAGE⟩)) ∧
    (∀ r, from_input [.otherAttr, .typePathNameValue (.ok "my_crate::Foo") 3] =
      .ok r → r.1 = ReflectMode.Normal) := by
  refine C7_mode_conflict_and_default_mode _ _
    ⟨.reflectList (.ok ContainerAttributes.default) 1, ?_, trivial⟩
    ⟨.reflectValuePath 2, ?_, trivial⟩ ?_
  · exact List.mem_cons_self _ _
  · exact List.mem_cons_of_mem _ (List.mem_cons_self _ _)
  · intro x hx
    rcases List.mem_cons.mp hx with rfl | hx
    · exact fun hf => hf
    · rcases List.mem_cons.mp hx with rfl | hx
      · exact fun hf => hf
      · exact absurd hx (List.not_mem_nil x)

/-! ### C9 -/

theorem tuple_struct_partial_eq_loop_none {α : Type} (peq : α → α → Option Bool)
    (a : List α) :
    ∀ (bf : List α) (i : Nat),
      tuple_struct_partial_eq_loop peq a bf i = none →
      ∃ k fa fb, a[i + k]? = some fa ∧ bf[k]? = some fb ∧ peq fa fb = none := by
  intro bf
  induction bf with
  | nil =>
    intro i h
    simp [tuple_struct_partial_eq_loop] at h
  | cons v rest ih =>
    intro i h
    rw [tuple_struct_partial_eq_loop] at h
    split at h
    next fv ha =>
      split at h
      next hp =>
        obtain ⟨k, fa, fb, h1, h2, h3⟩ := ih (i + 1) h
        refine ⟨k + 1, fa, fb, ?_, by simpa using h2, h3⟩
        rw [show i + (k + 1) = i + 1 + k by omega]
        exact h1
      next hp => cases h
      next hp => exact ⟨0, fv, v, by simpa using ha, by simp, hp⟩
    next ha => cases h

theorem tuple_struct_partial_eq_loop_all_true {α : Type}
    (peq : α → α → Option Bool) (a : List α) :
    ∀ (bf : List α) (i : Nat),
      tuple_struct_partial_eq_loop peq a bf i = some true →
      ∀ (k : Nat) (fa fb : α), a[i + k]? = some fa → bf[k]? = some fb →
        peq fa fb = some true := by
  intro bf
  induction bf with
  | nil =>
    intro i h k fa fb hfa hfb
    simp at hfb
  | cons v rest ih =>
    intro i h k fa fb hfa hfb
    rw [tuple_struct_partial_eq_loop] at h
    split at h
    next fv ha =>
      split at h
      next hp =>
        cases k with
        | zero =>
          rw [Nat.add_zero, ha] at hfa
          cases hfa
          simp only [List.getElem?_cons_zero] at hfb
          cases hfb
          exact hp
        | succ k =>
          refine ih (i + 1) h k fa fb ?_ (by simpa using hfb)
          rw [show i + 1 + k = i + (k + 1) by omega]
          exact hfa
      next hp => cases h
      next hp => cases h
    next ha => cases h

/-- C9: `tuple_struct_partial_eq` answers `Some(false)` — never the
no-answer signal — both for a non-tuple-struct comparand and for a field
count mismatch; it answers `None` only when some pairwise field comparison
answers `None`, and `Some(true)` only when every pairwise field comparison
answers `Some(true)`. -/
theorem C9_tuple_struct_partial_eq_cases {α : Type} (peq : α → α → Option Bool)
    (a : List α) :
    (∀ b : PartialReflectValue α, ¬ b.isTupleStruct →
      tuple_struct_partial_eq peq a b = some false) ∧
    (∀ bf : List α, a.length ≠ bf.length →
      tuple_struct_partial_eq peq a (.TupleStruct bf) = some false) ∧
    (∀ bf : List α, tuple_struct_partial_eq peq a (.TupleStruct bf) = none →
      ∃ (i : Nat) (fa fb : α), a[i]? = some fa ∧ bf[i]? = some fb ∧
        peq fa fb = none) ∧
    (∀ bf : List α, tuple_struct_partial_eq peq a (.TupleStruct bf) = some true →
      ∀ (i : Nat) (fa fb : α), a[i]? = some fa → bf[i]? = some fb →
        peq fa fb = some true) := by
  refine ⟨?_, ?_, ?_, ?_⟩
  · intro b hb
    cases b <;> first | rfl | exact absurd trivial hb
  · intro bf hlen
    simp [tuple_struct_partial_eq, hlen]
  · intro bf h
    rw [tuple_struct_partial_eq] at h
    split at h
    · cases h
    · obtain ⟨k, fa, fb, h1, h2, h3⟩ :=
        tuple_struct_partial_eq_loop_none peq a bf 0 h
      exact ⟨k, fa, fb, by simpa using h1, h2, h3⟩
  · intro bf h i fa fb hfa hfb
    rw [tuple_struct_partial_eq] at h
    split at h
    · cases h
    · exact tuple_struct_partial_eq_loop_all_true peq a bf 0 h i fa fb
        (by simpa using hfa) hfb

/-- Witness for C9 with the comparison `peqW` on concrete field lists: a
struct-kind comparand and a length mismatch yield `Some false`; a `None`
pairwise answer is exhibited for the all-nine list. -/
theorem C9_witness :
    (tuple_struct_partial_eq peqW [1, 2] .Struct = some false) ∧
    (tuple_struct_partial_eq peqW [1, 2] (.TupleStruct [1, 2, 3]) = some false) ∧
    (∃ (i : Nat) (fa fb : Nat), ([9] : List Nat)[i]? = some fa ∧
      ([3] : List Nat)[i]? = some fb ∧ peqW fa fb = none) := by
  refine ⟨(C9_tuple_struct_partial_eq_cases peqW [1, 2]).1 .Struct ?_,
    (C9_tuple_struct_partial_eq_cases peqW [1, 2]).2.1 [1, 2, 3] (by decide),
    (C9_tuple_struct_partial_eq_cases peqW [9]).2.2.1 [3] rfl⟩
  intro hb
  exact hb
